import Mathlib

/-!
Shallow embedding of the deep-logic-timer repository.

The program is a React countdown-timer UI. The parts relevant to the
frozen claims are:
  * a static celestial reference table with two pure helpers
    (`src/components/ThreeScene.tsx`, `celestialData` section);
  * a bounded newest-first message log (`addMessage` in the App file,
    `src/unnamed/part_000`);
  * the timer state machine (`toggleTimer`, `resetTimer`, and the
    1-second tick interval effect in `src/unnamed/part_000`);
  * the 40-second status poll interval effect and `fetchAIStatus`
    (`src/unnamed/part_000`);
  * the status-text fetcher `getRoboticStatus`
    (`src/components/ThreeScene.tsx`, geminiService section);
  * the Three.js animation loop (`src/components/ThreeScene.tsx`).

JavaScript numbers are modelled as `ℚ` (all constants in the source are
exact decimal literals), counters and seconds as `Nat`. The external
generative-text call is modelled by an oracle parameter (`NetOutcome`):
the network either fails or returns an optional text. `Date.now()`
timestamps on log entries are presentational and never examined by any
claim, so the embedded `RobotMessage` carries text and kind only.
-/

namespace DeepLogicTimer

/-! ## Celestial reference data (`celestialData` section of ThreeScene.tsx) -/

/-- One entry of the static reference table. Display metadata
(colors, tilt strings, descriptions, mission names) is decorative and
never read by the logic under verification, so only the fields the
program logic consumes are embedded. -/
structure CelestialBody where
  name : String
  orbitalPeriodHours : ℚ
deriving DecidableEq

/-- The six bodies of `CELESTIAL_BODIES`, fastest period first. -/
def CELESTIAL_BODIES : List CelestialBody :=
  [⟨"Phobos", 7.654⟩,
   ⟨"Amalthea", 11.957⟩,
   ⟨"Io", 42.459⟩,
   ⟨"Europa", 85.228⟩,
   ⟨"Moon", 655.72⟩,
   ⟨"Mercury", 2111.28⟩]

/-- One entry of `NOTABLE_COMETS`. -/
structure Comet where
  name : String
  periodYears : ℚ
  lastPerihelion : Nat
  nextPerihelion : Nat
deriving DecidableEq

/-- The `NOTABLE_COMETS` table. -/
def NOTABLE_COMETS : List Comet :=
  [⟨"Halley\x27s Comet", 75.3, 1986, 2061⟩,
   ⟨"Comet Encke", 3.3, 2023, 2026⟩,
   ⟨"Wild 2", 6.41, 2022, 2028⟩]

/-- Model of JavaScript `x.toFixed(2)` for the nonnegative decimal
values appearing in this program: round `x * 100` to the nearest
integer (half away from zero for the nonnegative inputs used here) and
print with exactly two digits after the point. -/
def toFixed2 (q : ℚ) : String :=
  let n : Nat := ((q * 100 + 1 / 2).floor).toNat
  toString (n / 100) ++ "." ++
    (if n % 100 < 10 then "0" ++ toString (n % 100) else toString (n % 100))

/-- Embedding of `formatOrbitalPeriod` from the celestialData section:
below 24 hours print hours with suffix `h`, below `24 * 365` hours
print days with suffix `d`, otherwise print Julian years with suffix
`yr`. -/
def formatOrbitalPeriod (hours : ℚ) : String :=
  if hours < 24 then toFixed2 hours ++ "h"
  else if hours < 24 * 365 then toFixed2 (hours / 24) ++ "d"
  else toFixed2 (hours / (24 * 365.25)) ++ "yr"

/-! ## The message log (`addMessage` in src/unnamed/part_000) -/

/-- The `RobotMessage.type` union from types.ts. The constructor for
the `'status'` variant is named `statusKind` to keep it visibly apart
from the timer status enum. -/
inductive MsgKind
  | statusKind
  | warning
  | alert
  | info
deriving DecidableEq

/-- A log entry: `{ text, type, timestamp }` with the presentational
`Date.now()` timestamp omitted (no claim examines it). -/
structure RobotMessage where
  text : String
  kind : MsgKind
deriving DecidableEq

/-- Embedding of `setMessages(prev => [newMessage, ...prev].slice(0, 10))`:
prepend the new entry and keep the first ten. -/
def addMessageList (m : RobotMessage) (l : List RobotMessage) : List RobotMessage :=
  (m :: l).take 10

/-- Left fold of `addMessageList` over a sequence of insertions,
oldest insertion first. -/
def insertAll (ms : List RobotMessage) (l : List RobotMessage) : List RobotMessage :=
  ms.foldl (fun acc m => addMessageList m acc) l

/-! ## Timer state machine (src/unnamed/part_000) -/

/-- The `TimerStatus` enum from types.ts. -/
inductive TimerStatus
  | idle
  | running
  | paused
  | completed
deriving DecidableEq

/-- `INITIAL_TIME = 5 * 60` seconds. -/
def INITIAL_TIME : Nat := 5 * 60

/-- The App component state relevant to the timer claims:
`timeLeft`, `status` and the bounded `messages` log. -/
structure AppState where
  timeLeft : Nat
  status : TimerStatus
  messages : List RobotMessage
deriving DecidableEq

/-- State at mount: `useState(INITIAL_TIME)`, `useState(TimerStatus.IDLE)`,
`useState<RobotMessage[]>([])`. -/
def initState : AppState :=
  { timeLeft := INITIAL_TIME, status := .idle, messages := [] }

/-- `addMessage` lifted to the App state. -/
def addMessage (text : String) (kind : MsgKind) (s : AppState) : AppState :=
  { s with messages := addMessageList ⟨text, kind⟩ s.messages }

/-- The alert text emitted on completion, built exactly as in the
source from the first reference body and the first comet:
`PHOBOS COMPLETES ONE ORBIT IN ${CELESTIAL_BODIES[0].orbitalPeriodHours.toFixed(2)}H.
SESSION ELAPSED. NEXT: HALLEY'S COMET ${NOTABLE_COMETS[0].nextPerihelion}.` -/
def alertText : String :=
  "PHOBOS COMPLETES ONE ORBIT IN "
    ++ toFixed2 ((CELESTIAL_BODIES.headD ⟨"", 0⟩).orbitalPeriodHours)
    ++ "H. SESSION ELAPSED. NEXT: HALLEY\x27S COMET "
    ++ toString ((NOTABLE_COMETS.headD ⟨"", 0, 0, 0⟩).nextPerihelion)
    ++ "."

/-- One firing of the per-second interval. The interval effect is
registered only when `status === RUNNING && timeLeft > 0`, and its
callback completes the timer when `prev <= 1` (set status to
COMPLETED, emit the alert, clamp at 0) and decrements otherwise. -/
def tick (s : AppState) : AppState :=
  if s.status = .running ∧ 0 < s.timeLeft then
    if s.timeLeft ≤ 1 then
      addMessage alertText .alert { s with timeLeft := 0, status := .completed }
    else
      { s with timeLeft := s.timeLeft - 1 }
  else s

/-- Embedding of `toggleTimer`: from RUNNING go to PAUSED with a
warning entry, from any other status go to RUNNING with an info
entry. -/
def toggleTimer (s : AppState) : AppState :=
  if s.status = .running then
    addMessage "TEMPORAL DISPLACEMENT FROZEN." .warning { s with status := .paused }
  else
    addMessage "INITIATING ALIEN LOGIC SEQUENCE." .info { s with status := .running }

/-- Embedding of `resetTimer`: unconditionally IDLE, 300 seconds, info
entry. -/
def resetTimer (s : AppState) : AppState :=
  addMessage "CALIBRATING INTERSTELLAR COORDINATES..." .info
    { s with status := .idle, timeLeft := INITIAL_TIME }

/-- The three operations that drive the timer state. -/
inductive Op
  | toggle
  | reset
  | tick
deriving DecidableEq

/-- Apply one operation. -/
def applyOp : Op → AppState → AppState
  | .toggle => toggleTimer
  | .reset => resetTimer
  | .tick => tick

/-- Run a sequence of operations from a state, first operation first. -/
def runOps (ops : List Op) (s : AppState) : AppState :=
  ops.foldl (fun s op => applyOp op s) s

/-- A state is reachable when some operation sequence produces it from
the mount state. -/
def Reachable (s : AppState) : Prop :=
  ∃ ops, runOps ops initState = s

/-- Number of alert entries currently in the log. -/
def alertCount (s : AppState) : Nat :=
  s.messages.countP (fun m => m.kind == MsgKind.alert)

/-- Iterated per-second tick. -/
def tickIter : Nat → AppState → AppState
  | 0, s => s
  | n + 1, s => tick (tickIter n s)

/-- A freshly reset timer whose status is then set to Running:
`resetTimer` followed by `toggleTimer` from the mount state. -/
def startRunning : AppState :=
  toggleTimer (resetTimer initState)

/-- The log contents of `startRunning`: the toggle info entry on top of
the reset info entry. -/
def startMsgs : List RobotMessage :=
  [⟨"INITIATING ALIEN LOGIC SEQUENCE.", .info⟩,
   ⟨"CALIBRATING INTERSTELLAR COORDINATES...", .info⟩]

/-! ## Status-text fetcher (geminiService section of ThreeScene.tsx) -/

/-- Outcome of the external generative-text call: the service either
fails (network or service error, modelling the `catch` branch) or
succeeds with `response.text`, an optional string. -/
inductive NetOutcome
  | failure
  | success (text : Option String)
deriving DecidableEq

/-- Embedding of `getRoboticStatus`: with no `API_KEY` it returns
`"Core connection lost."` before any call; otherwise it performs the
single call, returning `"Offline protocol engaged."` from the `catch`
branch and `response.text || "Systems nominal."` on success (both
`undefined` and the empty string are falsy). The result pairs the
returned string with the number of network calls attempted. The prompt
built from `timeLeft` and the reference tables only feeds the external
call and is never examined by a claim, so its text is not reproduced
here. -/
def getRoboticStatus (apiKey : Option String) (timeLeft : Nat) (net : NetOutcome) :
    String × Nat :=
  match apiKey with
  | none => ("Core connection lost.", 0)
  | some _ =>
    match net with
    | .failure => ("Offline protocol engaged.", 1)
    | .success none => ("Systems nominal.", 1)
    | .success (some t) => (if t = "" then "Systems nominal." else t, 1)

/-! ## Status-poll loop (40-second interval effect in src/unnamed/part_000) -/

/-- App state together with the poll interval's elapsed seconds and the
number of times the status-text fetcher has been invoked. -/
structure WallState where
  app : AppState
  pollElapsed : Nat
  fetchCount : Nat
deriving DecidableEq

/-- One firing of the 40-second interval callback
`() => { if (status === RUNNING) fetchAIStatus(); }`: while RUNNING it
invokes `getRoboticStatus(timeLeft)` and appends the result as a
`'status'` entry; otherwise nothing runs. -/
def pollFireEvent (key : Option String) (net : NetOutcome) (s : WallState) : WallState :=
  if s.app.status = .running then
    { s with
        app := addMessage (getRoboticStatus key s.app.timeLeft net).1 .statusKind s.app,
        fetchCount := s.fetchCount + 1 }
  else s

/-- One wall-clock second of the mounted component. First the 1-second
timer interval fires (when registered, i.e. RUNNING with time left).
The 40-second poll interval lives in a `useEffect` whose dependency
list is `[status, fetchAIStatus]`, and `fetchAIStatus` is a
`useCallback` re-created whenever `status` or `timeLeft` changes; so
whenever this second changed `status` or `timeLeft`, the effect
re-runs, clearing the poll interval and starting a fresh one (elapsed
time back to 0). Only when the dependencies are unchanged does the
interval keep its age, firing on reaching 40 seconds. -/
def wallSecond (key : Option String) (net : NetOutcome) (s : WallState) : WallState :=
  let a1 := tick s.app
  if a1.status = s.app.status ∧ a1.timeLeft = s.app.timeLeft then
    if s.pollElapsed + 1 = 40 then
      pollFireEvent key net ⟨a1, 0, s.fetchCount⟩
    else ⟨a1, s.pollElapsed + 1, s.fetchCount⟩
  else ⟨a1, 0, s.fetchCount⟩

/-- Iterated wall-clock seconds. -/
def wallIter (key : Option String) (net : NetOutcome) : Nat → WallState → WallState
  | 0, s => s
  | n + 1, s => wallSecond key net (wallIter key net n s)

/-! ## Scene animator (ThreeScene.tsx animation loop) -/

/-- `ANIMATION_SPEED_RUNNING = 0.004`. -/
def ANIMATION_SPEED_RUNNING : ℚ := 0.004

/-- `ANIMATION_SPEED_IDLE = 0.0008`. -/
def ANIMATION_SPEED_IDLE : ℚ := 0.0008

/-- `ORBITAL_SPEED_SCALE = 260`. -/
def ORBITAL_SPEED_SCALE : ℚ := 260

/-- `const dt = isRunningRef.current ? ANIMATION_SPEED_RUNNING :
ANIMATION_SPEED_IDLE;` — the ref is read fresh on every frame. -/
def deltaOf (isRunning : Bool) : ℚ :=
  if isRunning then ANIMATION_SPEED_RUNNING else ANIMATION_SPEED_IDLE

/-- Mutable scene values advanced each frame: the shared accumulator
`t`, the core mesh rotations, and one persistent orbit angle per body
(`orbitPivots[i].rotation.y`). The camera-rig rotation is derived from
`t` via `sin` each frame (not accumulated) and is not modelled. -/
structure AnimState where
  t : ℚ
  coreRotY : ℚ
  coreRotX : ℚ
  pivotAngles : List ℚ
deriving DecidableEq

/-- Per-body update `pivot.rotation.y += (1 / body.orbitalPeriodHours) *
ORBITAL_SPEED_SCALE * dt`. -/
def orbitStep (periodHours dt a : ℚ) : ℚ :=
  a + 1 / periodHours * ORBITAL_SPEED_SCALE * dt

/-- One invocation of `animate`: pick `dt` from the fresh is-running
flag, advance `t`, rotate the core by fixed increments, and advance
each body's angle by its period-scaled step. -/
def animateFrame (isRunning : Bool) (s : AnimState) : AnimState :=
  let dt := deltaOf isRunning
  { t := s.t + dt
    coreRotY := s.coreRotY + 0.005
    coreRotX := s.coreRotX + 0.003
    pivotAngles :=
      List.zipWith (fun a body => orbitStep body.orbitalPeriodHours dt a)
        s.pivotAngles CELESTIAL_BODIES }

/-! ## Basic step lemmas for the timer machine -/

lemma runOps_cons (op : Op) (ops : List Op) (s : AppState) :
    runOps (op :: ops) s = runOps ops (applyOp op s) := rfl

lemma runOps_nil (s : AppState) : runOps [] s = s := rfl

lemma applyOp_toggle (s : AppState) : applyOp Op.toggle s = toggleTimer s := rfl

lemma applyOp_tick (s : AppState) : applyOp Op.tick s = tick s := rfl

lemma runOps_append (l₁ l₂ : List Op) (s : AppState) :
    runOps (l₁ ++ l₂) s = runOps l₂ (runOps l₁ s) :=
  List.foldl_append _ _ _ _

lemma tick_of_two_le (m : Nat) (msgs : List RobotMessage) (h : 2 ≤ m) :
    tick ⟨m, .running, msgs⟩ = ⟨m - 1, .running, msgs⟩ := by
  have h0 : 0 < m := by omega
  have h1 : ¬ (m ≤ 1) := by omega
  simp [tick, h0, h1]

lemma tick_of_one : ∀ msgs : List RobotMessage,
    tick ⟨1, .running, msgs⟩
      = ⟨0, .completed, addMessageList ⟨alertText, .alert⟩ msgs⟩ := by
  intro msgs
  simp [tick, addMessage]

lemma tick_of_zero_timeLeft (s : AppState) (h : s.timeLeft = 0) : tick s = s := by
  unfold tick
  rw [if_neg (fun hx => absurd hx.2 (by omega))]

lemma tickIter_run_of_lt (msgs : List RobotMessage) :
    ∀ n m : Nat, n < m →
      tickIter n ⟨m, .running, msgs⟩ = ⟨m - n, .running, msgs⟩ := by
  intro n
  induction n with
  | zero => intro m _; simp [tickIter]
  | succ n ih =>
    intro m h
    have hn : n < m := Nat.lt_of_succ_lt h
    rw [tickIter, ih m hn, tick_of_two_le (m - n) msgs (by omega)]
    congr 1

lemma tickIter_complete (m : Nat) (msgs : List RobotMessage) :
    tickIter (m + 1) ⟨m + 1, .running, msgs⟩
      = ⟨0, .completed, addMessageList ⟨alertText, .alert⟩ msgs⟩ := by
  rw [tickIter, tickIter_run_of_lt msgs m (m + 1) (Nat.lt_succ_self m)]
  have h1 : m + 1 - m = 1 := by omega
  rw [h1, tick_of_one]

lemma tickIter_tick_comm (n : Nat) (s : AppState) :
    tickIter n (tick s) = tick (tickIter n s) := by
  induction n with
  | zero => rfl
  | succ n ih => rw [tickIter, ih, tickIter]

lemma runOps_replicate_tick : ∀ (n : Nat) (s : AppState),
    runOps (List.replicate n Op.tick) s = tickIter n s := by
  intro n
  induction n with
  | zero => intro s; rfl
  | succ n ih =>
    intro s
    rw [List.replicate_succ, runOps_cons, ih, tickIter, ← tickIter_tick_comm]
    rfl

/-- C1: for every `n ≤ 300`, starting from a freshly reset timer whose
status is then set to Running, after `n` per-second ticks
`secondsRemaining = 300 - n`; for `n < 300` the timer is still Running
with no Alert entry, and at `n = 300` the status has become Completed
with exactly one Alert entry in the log, and a further tick changes
nothing (no decrement below 0, no second completion). -/
theorem c1_countdown_from_reset (n : Nat) (h : n ≤ 300) :
    (tickIter n startRunning).timeLeft = 300 - n
    ∧ (n < 300 → (tickIter n startRunning).status = .running
        ∧ alertCount (tickIter n startRunning) = 0)
    ∧ (n = 300 → (tickIter n startRunning).status = .completed
        ∧ alertCount (tickIter n startRunning) = 1
        ∧ tick (tickIter n startRunning) = tickIter n startRunning) := by
  have hs : startRunning = ⟨300, .running, startMsgs⟩ := rfl
  by_cases h300 : n = 300
  · subst h300
    have hc : tickIter 300 startRunning
        = ⟨0, .completed, addMessageList ⟨alertText, .alert⟩ startMsgs⟩ := by
      rw [hs, show (300 : Nat) = 299 + 1 from rfl]
      exact tickIter_complete 299 startMsgs
    rw [hc]
    refine ⟨rfl, fun hlt => absurd hlt (by omega), fun _ => ⟨rfl, by decide, ?_⟩⟩
    exact tick_of_zero_timeLeft _ rfl
  · have hlt : n < 300 := by omega
    rw [hs, tickIter_run_of_lt startMsgs n 300 hlt]
    exact ⟨rfl, fun _ => ⟨rfl, rfl⟩, fun hc => absurd hc h300⟩

/-- Witness for C1 at `n = 300`. -/
theorem c1_countdown_witness :
    (tickIter 300 startRunning).timeLeft = 300 - 300
    ∧ (300 < 300 → (tickIter 300 startRunning).status = .running
        ∧ alertCount (tickIter 300 startRunning) = 0)
    ∧ (300 = 300 → (tickIter 300 startRunning).status = .completed
        ∧ alertCount (tickIter 300 startRunning) = 1
        ∧ tick (tickIter 300 startRunning) = tickIter 300 startRunning) :=
  c1_countdown_from_reset 300 (by decide)

/-! ## Reachability lemmas (C2, C4) -/

lemma toggleTimer_timeLeft (s : AppState) : (toggleTimer s).timeLeft = s.timeLeft := by
  unfold toggleTimer
  split <;> rfl

lemma resetTimer_timeLeft (s : AppState) : (resetTimer s).timeLeft = 300 := rfl

lemma tick_timeLeft_le (s : AppState) : (tick s).timeLeft ≤ s.timeLeft := by
  unfold tick
  split
  · split
    · simp [addMessage]
    · exact Nat.sub_le _ _
  · exact le_refl _

lemma runOps_timeLeft_le (ops : List Op) :
    ∀ s : AppState, s.timeLeft ≤ 300 → (runOps ops s).timeLeft ≤ 300 := by
  induction ops with
  | nil => intro s hs; exact hs
  | cons op rest ih =>
    intro s hs
    rw [runOps_cons]
    apply ih
    cases op with
    | toggle => rw [applyOp, toggleTimer_timeLeft]; exact hs
    | reset => exact le_of_eq (resetTimer_timeLeft s)
    | tick => exact le_trans (tick_timeLeft_le s) hs

lemma reachable_timeLeft_le {s : AppState} (h : Reachable s) : s.timeLeft ≤ 300 := by
  obtain ⟨ops, rfl⟩ := h
  exact runOps_timeLeft_le ops initState (le_refl 300)

lemma tick_decrease_running (s : AppState) (h : (tick s).timeLeft < s.timeLeft) :
    s.status = .running := by
  by_cases hg : s.status = .running ∧ 0 < s.timeLeft
  · exact hg.1
  · rw [show tick s = s by unfold tick; rw [if_neg hg]] at h
    exact absurd h (lt_irrefl _)

/-- The state after starting the timer at mount and letting all 300
ticks elapse: Completed at 0 with the alert on top of the start info
entry. -/
lemma completedState_eq :
    runOps (Op.toggle :: List.replicate 300 Op.tick) initState
      = ⟨0, .completed,
          addMessageList ⟨alertText, .alert⟩
            [⟨"INITIATING ALIEN LOGIC SEQUENCE.", .info⟩]⟩ := by
  rw [runOps_cons, runOps_replicate_tick]
  have h1 : applyOp Op.toggle initState
      = ⟨300, .running, [⟨"INITIATING ALIEN LOGIC SEQUENCE.", .info⟩]⟩ := rfl
  rw [h1, show (300 : Nat) = 299 + 1 from rfl]
  exact tickIter_complete 299 _

lemma toggle_of_completed (s : AppState) (h : s.status = .completed) :
    toggleTimer s
      = ⟨s.timeLeft, .running,
          addMessageList ⟨"INITIATING ALIEN LOGIC SEQUENCE.", .info⟩ s.messages⟩ := by
  unfold toggleTimer
  rw [if_neg (by rw [h]; intro hx; exact TimerStatus.noConfusion hx)]
  rfl

/-- The state after start, full countdown, and one more toggle:
Running at 0 with three log entries. -/
lemma badRunningState_eq :
    runOps (Op.toggle :: (List.replicate 300 Op.tick ++ [Op.toggle])) initState
      = ⟨0, .running,
          [⟨"INITIATING ALIEN LOGIC SEQUENCE.", .info⟩,
           ⟨alertText, .alert⟩,
           ⟨"INITIATING ALIEN LOGIC SEQUENCE.", .info⟩]⟩ := by
  rw [runOps_cons, runOps_append, runOps_replicate_tick]
  have h1 : applyOp Op.toggle initState
      = ⟨300, .running, [⟨"INITIATING ALIEN LOGIC SEQUENCE.", .info⟩]⟩ := rfl
  rw [h1, show (300 : Nat) = 299 + 1 from rfl, tickIter_complete]
  rw [runOps_cons, runOps_nil, applyOp_toggle, toggle_of_completed _ rfl]
  rfl

/-- C2 counterexample: the claimed invariant "no reachable state has
`secondsRemaining = 0` with status Running" is false. Start the timer,
let it run to completion, then toggle once more: the resulting
reachable state is Running with `secondsRemaining = 0`. -/
theorem c2_zero_running_reachable_counterexample :
    Reachable (runOps (Op.toggle :: (List.replicate 300 Op.tick ++ [Op.toggle])) initState)
    ∧ (runOps (Op.toggle :: (List.replicate 300 Op.tick ++ [Op.toggle])) initState).timeLeft = 0
    ∧ (runOps (Op.toggle :: (List.replicate 300 Op.tick ++ [Op.toggle])) initState).status
        = .running := by
  refine ⟨⟨_, rfl⟩, ?_, ?_⟩ <;> rw [badRunningState_eq]

/-- Amended C2: `secondsRemaining` indeed only decreases in a step whose
starting status is Running, and a tick that consumes the last second
forces Completed; but the second half of the claim fails: a reachable
state with `secondsRemaining = 0` and status Running exists, because
`toggle()` from Completed re-enters Running without resetting the
time. -/
theorem c2_invariant_amended :
    (∀ (s : AppState) (op : Op), Reachable s →
        (applyOp op s).timeLeft < s.timeLeft → s.status = .running)
    ∧ (∀ s : AppState, 0 < s.timeLeft → (tick s).timeLeft = 0 →
        (tick s).status = .completed)
    ∧ (∃ s, Reachable s ∧ s.timeLeft = 0 ∧ s.status = .running) := by
  refine ⟨?_, ?_, ?_⟩
  · intro s op hr hlt
    cases op with
    | toggle => rw [applyOp, toggleTimer_timeLeft] at hlt; exact absurd hlt (lt_irrefl _)
    | reset =>
      rw [applyOp, resetTimer_timeLeft] at hlt
      exact absurd (lt_of_le_of_lt (reachable_timeLeft_le hr) hlt) (lt_irrefl _)
    | tick => exact tick_decrease_running s hlt
  · intro s hpos hzero
    unfold tick at hzero ⊢
    by_cases hg : s.status = .running ∧ 0 < s.timeLeft
    · rw [if_pos hg] at hzero ⊢
      by_cases h1 : s.timeLeft ≤ 1
      · rw [if_pos h1]; rfl
      · rw [if_neg h1] at hzero
        exact absurd hzero (by simp; omega)
    · rw [if_neg hg] at hzero; omega
  · exact ⟨_, ⟨_, badRunningState_eq⟩, rfl, rfl⟩

/-- Witness for amended C2 at the mount state and a tick step. -/
theorem c2_invariant_amended_witness :
    Reachable initState
    ∧ ((applyOp Op.tick initState).timeLeft < initState.timeLeft →
        initState.status = .running) :=
  ⟨⟨[], rfl⟩, c2_invariant_amended.1 initState Op.tick ⟨[], rfl⟩⟩

/-- C4 counterexample: toggling from Completed does re-enter Running
with `secondsRemaining = 0`, but the claimed instant re-completion does
not happen: the 1-second interval is only registered while
`timeLeft > 0`, so the next tick is a no-op — the status stays Running
(never returns to Completed) and the Alert entry is not emitted a
second time (the log still holds exactly one alert). -/
theorem c4_no_recompletion_counterexample :
    (runOps (Op.toggle :: (List.replicate 300 Op.tick ++ [Op.toggle, Op.tick])) initState).status
        = .running
    ∧ alertCount
        (runOps (Op.toggle :: (List.replicate 300 Op.tick ++ [Op.toggle, Op.tick])) initState)
        = 1 := by
  have key : runOps (Op.toggle :: (List.replicate 300 Op.tick ++ [Op.toggle, Op.tick])) initState
      = ⟨0, .running,
          [⟨"INITIATING ALIEN LOGIC SEQUENCE.", .info⟩,
           ⟨alertText, .alert⟩,
           ⟨"INITIATING ALIEN LOGIC SEQUENCE.", .info⟩]⟩ := by
    rw [runOps_cons, runOps_append, runOps_replicate_tick]
    have h1 : applyOp Op.toggle initState
        = ⟨300, .running, [⟨"INITIATING ALIEN LOGIC SEQUENCE.", .info⟩]⟩ := rfl
    rw [h1, show (300 : Nat) = 299 + 1 from rfl, tickIter_complete]
    rw [runOps_cons, runOps_cons, runOps_nil, applyOp_toggle, applyOp_tick,
        toggle_of_completed _ rfl, tick_of_zero_timeLeft _ rfl]
    rfl
  rw [key]
  exact ⟨rfl, rfl⟩

/-- Amended C4: toggling from Completed re-enters Running without
clearing `secondsRemaining`; when that value is 0, a subsequent tick is
a no-op (the tick interval effect requires `timeLeft > 0`), so the
timer does not re-complete and no second Alert is emitted. -/
theorem c4_toggle_from_completed_amended (s : AppState) (h : s.status = .completed) :
    (toggleTimer s).status = .running
    ∧ (toggleTimer s).timeLeft = s.timeLeft
    ∧ (s.timeLeft = 0 → tick (toggleTimer s) = toggleTimer s) := by
  rw [toggle_of_completed s h]
  exact ⟨rfl, rfl, fun hz => tick_of_zero_timeLeft _ hz⟩

/-- Witness for amended C4 at the concrete completed state reached by
running the timer down. -/
theorem c4_toggle_from_completed_witness :
    (runOps (Op.toggle :: List.replicate 300 Op.tick) initState).status = .completed
    ∧ ((toggleTimer (runOps (Op.toggle :: List.replicate 300 Op.tick) initState)).status
          = .running
        ∧ (toggleTimer (runOps (Op.toggle :: List.replicate 300 Op.tick) initState)).timeLeft
          = (runOps (Op.toggle :: List.replicate 300 Op.tick) initState).timeLeft
        ∧ ((runOps (Op.toggle :: List.replicate 300 Op.tick) initState).timeLeft = 0 →
            tick (toggleTimer (runOps (Op.toggle :: List.replicate 300 Op.tick) initState))
              = toggleTimer (runOps (Op.toggle :: List.replicate 300 Op.tick) initState))) :=
  ⟨by rw [completedState_eq],
   c4_toggle_from_completed_amended _ (by rw [completedState_eq])⟩

/-! ## Bounded log lemmas (C5) -/

lemma take_append_take (xs ys : List RobotMessage) :
    (xs ++ ys.take 10).take 10 = (xs ++ ys).take 10 := by
  rw [List.take_append_eq_append_take, List.take_append_eq_append_take, List.take_take,
      Nat.min_eq_left (Nat.sub_le 10 xs.length)]

lemma insertAll_cons (m : RobotMessage) (ms l : List RobotMessage) :
    insertAll (m :: ms) l = insertAll ms (addMessageList m l) := rfl

lemma insertAll_eq (ms : List RobotMessage) :
    ∀ l : List RobotMessage, l.length ≤ 10 →
      insertAll ms l = (ms.reverse ++ l).take 10 := by
  induction ms with
  | nil =>
    intro l hl
    exact (List.take_of_length_le (by simpa using hl)).symm
  | cons m ms ih =>
    intro l hl
    rw [insertAll_cons, ih (addMessageList m l)
        (by rw [addMessageList, List.length_take]; omega)]
    rw [addMessageList, take_append_take, List.reverse_cons, List.append_assoc]
    rfl

/-- C5: starting from the empty log, the log never exceeds 10 entries
under any sequence of insertions (the bound is preserved from any
within-capacity log), each insertion places the new entry first, and
after 11 insertions the first-inserted entry's slot has been evicted:
the log is exactly the last 10 insertions in newest-first order. -/
theorem c5_bounded_newest_first_log :
    (∀ ms l : List RobotMessage, l.length ≤ 10 → (insertAll ms l).length ≤ 10)
    ∧ (∀ (m : RobotMessage) (l : List RobotMessage), (addMessageList m l).head? = some m)
    ∧ (∀ (m : RobotMessage) (rest : List RobotMessage), rest.length = 10 →
        insertAll (m :: rest) [] = rest.reverse) := by
  refine ⟨?_, ?_, ?_⟩
  · intro ms l hl
    rw [insertAll_eq ms l hl, List.length_take]
    omega
  · intro m l
    rfl
  · intro m rest hrest
    rw [insertAll_eq (m :: rest) [] (by simp),
        List.append_nil, List.reverse_cons,
        List.take_append_of_le_length (by simp [hrest]),
        List.take_of_length_le (by simp [hrest])]

/-- Witness for C5: eleven concrete insertions leave exactly the last
ten, newest first; the first-inserted entry is gone. -/
theorem c5_bounded_log_witness :
    ([⟨"L01", .info⟩, ⟨"L02", .info⟩, ⟨"L03", .info⟩, ⟨"L04", .info⟩,
      ⟨"L05", .info⟩, ⟨"L06", .info⟩, ⟨"L07", .info⟩, ⟨"L08", .info⟩,
      ⟨"L09", .info⟩, ⟨"L10", .info⟩] : List RobotMessage).length = 10
    ∧ insertAll (⟨"L00", .info⟩ ::
        [⟨"L01", .info⟩, ⟨"L02", .info⟩, ⟨"L03", .info⟩, ⟨"L04", .info⟩,
         ⟨"L05", .info⟩, ⟨"L06", .info⟩, ⟨"L07", .info⟩, ⟨"L08", .info⟩,
         ⟨"L09", .info⟩, ⟨"L10", .info⟩]) []
      = ([⟨"L01", .info⟩, ⟨"L02", .info⟩, ⟨"L03", .info⟩, ⟨"L04", .info⟩,
          ⟨"L05", .info⟩, ⟨"L06", .info⟩, ⟨"L07", .info⟩, ⟨"L08", .info⟩,
          ⟨"L09", .info⟩, ⟨"L10", .info⟩] : List RobotMessage).reverse :=
  ⟨by decide, c5_bounded_newest_first_log.2.2 _ _ (by decide)⟩

/-! ## Status-poll loop lemmas (C3, C7) -/

lemma wallSecond_running_dec (key : Option String) (net : NetOutcome)
    (m : Nat) (msgs : List RobotMessage) (e f : Nat) (h : 2 ≤ m) :
    wallSecond key net ⟨⟨m, .running, msgs⟩, e, f⟩
      = ⟨⟨m - 1, .running, msgs⟩, 0, f⟩ := by
  unfold wallSecond
  rw [show tick ⟨m, .running, msgs⟩ = ⟨m - 1, .running, msgs⟩ from
        tick_of_two_le m msgs h]
  rw [if_neg (fun hx => absurd hx.2 (by simp; omega))]

lemma wallIter_running_no_fire (key : Option String) (net : NetOutcome)
    (msgs : List RobotMessage) :
    ∀ n m f : Nat, n < m →
      wallIter key net n ⟨⟨m, .running, msgs⟩, 0, f⟩
        = ⟨⟨m - n, .running, msgs⟩, 0, f⟩ := by
  intro n
  induction n with
  | zero => intro m f _; simp [wallIter]
  | succ n ih =>
    intro m f h
    rw [wallIter, ih m f (Nat.lt_of_succ_lt h),
        wallSecond_running_dec key net (m - n) msgs 0 f (by omega)]
    congr 2

/-- C3: what the code actually does at the claim's scenario. With the
timer Running (fresh start, 300 seconds) and `secondsRemaining`
changing every second, a full 40 seconds of wall-clock time elapse and
the status-text fetcher has still been invoked zero times: every
second the poll effect's dependencies (`fetchAIStatus`, re-created
with `timeLeft`) change, so the 40-second interval is cleared and
restarted before it can ever fire. The claim (and spec §4.2) say the
poll fires and invokes the fetcher; it does not. -/
theorem c3_poll_never_fires_while_running (key : Option String) (net : NetOutcome) :
    (wallIter key net 40 ⟨startRunning, 0, 0⟩).fetchCount = 0
    ∧ (wallIter key net 40 ⟨startRunning, 0, 0⟩).app.status = .running
    ∧ (wallIter key net 40 ⟨startRunning, 0, 0⟩).app.timeLeft = 300 - 40 := by
  rw [show (⟨startRunning, 0, 0⟩ : WallState) = ⟨⟨300, .running, startMsgs⟩, 0, 0⟩ from rfl,
      wallIter_running_no_fire key net startMsgs 40 300 0 (by omega)]
  exact ⟨rfl, rfl, rfl⟩

/-- C7: a firing of the 40-second poll callback while the status is not
Running does nothing at all: the fetcher is not invoked (the fetch
count is unchanged), no log entry is appended, and the whole state is
untouched. -/
theorem c7_poll_fire_not_running_noop (key : Option String) (net : NetOutcome)
    (s : WallState) (h : s.app.status ≠ .running) :
    pollFireEvent key net s = s := by
  unfold pollFireEvent
  rw [if_neg h]

/-- Witness for C7 at the mount state (status Idle). -/
theorem c7_poll_fire_witness :
    (⟨initState, 0, 0⟩ : WallState).app.status ≠ .running
    ∧ pollFireEvent none NetOutcome.failure ⟨initState, 0, 0⟩ = ⟨initState, 0, 0⟩ :=
  ⟨by decide, c7_poll_fire_not_running_noop none NetOutcome.failure _ (by decide)⟩

/-! ## Status-text fetcher theorems (C6, C10) -/

/-- C6: `getRoboticStatus` is a total function into strings — no
failure mode propagates to the caller. With the credential absent it
returns exactly `"Core connection lost."` with zero network calls
attempted; when the call throws it returns the fixed
`"Offline protocol engaged."`; when the call succeeds but yields no
text (or empty text) it returns the fixed `"Systems nominal."` — in
every failure mode the caller receives a fixed string and at most the
one attempted call. -/
theorem c6_fetcher_absorbs_failures :
    (∀ (timeLeft : Nat) (net : NetOutcome),
        getRoboticStatus none timeLeft net = ("Core connection lost.", 0))
    ∧ (∀ (key : String) (timeLeft : Nat),
        getRoboticStatus (some key) timeLeft .failure = ("Offline protocol engaged.", 1))
    ∧ (∀ (key : String) (timeLeft : Nat),
        getRoboticStatus (some key) timeLeft (.success none) = ("Systems nominal.", 1)
        ∧ getRoboticStatus (some key) timeLeft (.success (some "")) = ("Systems nominal.", 1))
    ∧ (∀ (key : Option String) (timeLeft : Nat) (net : NetOutcome),
        (getRoboticStatus key timeLeft net).2 ≤ 1) := by
  refine ⟨fun _ _ => rfl, fun _ _ => rfl, fun _ _ => ⟨rfl, rfl⟩, ?_⟩
  intro key timeLeft net
  match key, net with
  | none, _ => exact Nat.zero_le 1
  | some _, .failure => exact le_refl 1
  | some _, .success none => exact le_refl 1
  | some _, .success (some _) => exact le_refl 1

/-- C10: the fetcher's degraded outputs are three pairwise distinct
fixed strings, one per outcome: missing credential, thrown call, and a
successful call with empty or missing text. -/
theorem c10_three_distinct_fallbacks :
    ("Core connection lost." ≠ "Offline protocol engaged."
      ∧ "Core connection lost." ≠ "Systems nominal."
      ∧ "Offline protocol engaged." ≠ "Systems nominal.")
    ∧ (∀ (timeLeft : Nat) (net : NetOutcome),
        (getRoboticStatus none timeLeft net).1 = "Core connection lost.")
    ∧ (∀ (key : String) (timeLeft : Nat),
        (getRoboticStatus (some key) timeLeft .failure).1 = "Offline protocol engaged.")
    ∧ (∀ (key : String) (timeLeft : Nat),
        (getRoboticStatus (some key) timeLeft (.success none)).1 = "Systems nominal.") :=
  ⟨⟨by decide, by decide, by decide⟩,
   fun _ _ => rfl, fun _ _ => rfl, fun _ _ => rfl⟩

/-! ## Scene animator theorem (C8) -/

/-- C8: each frame's delta is the constant selected by the is-running
flag sampled that frame; one invocation of the animation loop advances
each body's accumulated angle by exactly
`(1 / orbitalPeriodHours) * ORBITAL_SPEED_SCALE * delta`; the
per-frame increase is independent of the current angle (so two frames
with identical delta add the same amount); and halving the orbital
period exactly doubles the per-frame angular increase. -/
theorem c8_orbit_angle_accumulation :
    (deltaOf true = ANIMATION_SPEED_RUNNING ∧ deltaOf false = ANIMATION_SPEED_IDLE)
    ∧ (∀ (isRunning : Bool) (t cy cx a₀ a₁ a₂ a₃ a₄ a₅ : ℚ),
        (animateFrame isRunning ⟨t, cy, cx, [a₀, a₁, a₂, a₃, a₄, a₅]⟩).pivotAngles =
          [a₀ + 1 / 7.654 * ORBITAL_SPEED_SCALE * deltaOf isRunning,
           a₁ + 1 / 11.957 * ORBITAL_SPEED_SCALE * deltaOf isRunning,
           a₂ + 1 / 42.459 * ORBITAL_SPEED_SCALE * deltaOf isRunning,
           a₃ + 1 / 85.228 * ORBITAL_SPEED_SCALE * deltaOf isRunning,
           a₄ + 1 / 655.72 * ORBITAL_SPEED_SCALE * deltaOf isRunning,
           a₅ + 1 / 2111.28 * ORBITAL_SPEED_SCALE * deltaOf isRunning])
    ∧ (∀ p dt a a' : ℚ, orbitStep p dt a - a = orbitStep p dt a' - a')
    ∧ (∀ p dt a : ℚ, p ≠ 0 →
        orbitStep (p / 2) dt a - a = 2 * (orbitStep p dt a - a)) := by
  refine ⟨⟨rfl, rfl⟩, fun _ _ _ _ _ _ _ _ _ _ => rfl, ?_, ?_⟩
  · intro p dt a a'
    simp [orbitStep]
  · intro p dt a hp
    simp only [orbitStep, add_sub_cancel_left]
    field_simp
    ring

/-- Witness for C8: halving the fastest body's period doubles the
per-frame angular increase at the running-speed delta. -/
theorem c8_orbit_angle_witness :
    (7.654 : ℚ) ≠ 0
    ∧ orbitStep (7.654 / 2) ANIMATION_SPEED_RUNNING 0 - 0
        = 2 * (orbitStep 7.654 ANIMATION_SPEED_RUNNING 0 - 0) :=
  ⟨by norm_num, c8_orbit_angle_accumulation.2.2.2 7.654 ANIMATION_SPEED_RUNNING 0 (by norm_num)⟩

/-! ## Period formatting theorem (C9) -/

/-- C9: `formatOrbitalPeriod` renders 7.654 with suffix `h`, 655.72
and 2111.28 with suffix `d` (2111.28 hours is about 87.97 days, below
the year threshold), and every period of at least 8760 hours with
suffix `yr`. -/
theorem c9_formatOrbitalPeriod_suffixes :
    (∃ p, formatOrbitalPeriod 7.654 = p ++ "h")
    ∧ (∃ p, formatOrbitalPeriod 655.72 = p ++ "d")
    ∧ (∃ p, formatOrbitalPeriod 2111.28 = p ++ "d")
    ∧ (∀ hours : ℚ, 8760 ≤ hours → ∃ p, formatOrbitalPeriod hours = p ++ "yr") := by
  refine ⟨⟨toFixed2 7.654, ?_⟩, ⟨toFixed2 (655.72 / 24), ?_⟩,
    ⟨toFixed2 (2111.28 / 24), ?_⟩, ?_⟩
  · unfold formatOrbitalPeriod
    rw [if_pos (by norm_num)]
  · unfold formatOrbitalPeriod
    rw [if_neg (by norm_num), if_pos (by norm_num)]
  · unfold formatOrbitalPeriod
    rw [if_neg (by norm_num), if_pos (by norm_num)]
  · intro hours h
    refine ⟨toFixed2 (hours / (24 * 365.25)), ?_⟩
    unfold formatOrbitalPeriod
    rw [if_neg (by norm_num; linarith), if_neg (by norm_num; linarith)]

/-- Witness for C9's year branch at 9000 hours. -/
theorem c9_formatOrbitalPeriod_witness :
    (8760 : ℚ) ≤ 9000
    ∧ ∃ p, formatOrbitalPeriod 9000 = p ++ "yr" :=
  ⟨by norm_num, c9_formatOrbitalPeriod_suffixes.2.2.2 9000 (by norm_num)⟩

end DeepLogicTimer
